import Mathlib

/-!
Verification of the `ImageOrganizer` class of
`src/py_image_organizer/image_organizer.py` (PyImageOrganizer).

The Python code is shallowly embedded: every function of the source that the
claims touch is translated into an executable Lean definition over `String`
(represented through its `List Char` data where we need computation), with
Python exceptions made explicit through `Except PyExc`.  External effects
(the PIL/mediainfo probes, the filesystem listing) are passed in as explicit
arguments describing what the external world returns, exactly at the points
where the source consults them.
-/

namespace ImageOrganizer

/-! ### Python string primitives

The source only ever splits on single-character separators (`" "`, `"-"`,
`":"`, `"/"`) and replaces single-character substrings (`"\x00"`, `":"`),
so the primitives below are implemented for a `Char` separator, structurally
recursive so that concrete runs reduce inside the kernel. -/

/-- Auxiliary worker for `pySplit`: accumulates the current field (reversed). -/
def splitCharAux (sep : Char) : List Char → List Char → List (List Char)
  | [], acc => [acc.reverse]
  | c :: rest, acc =>
    if c = sep then acc.reverse :: splitCharAux sep rest []
    else splitCharAux sep rest (c :: acc)

/-- Python `s.split(sep)` for a single-character separator: keeps empty
fields, never returns an empty list. -/
def pySplit (sep : Char) (s : String) : List String :=
  (splitCharAux sep s.data []).map fun l => ⟨l⟩

/-- Python `s.replace(old, new)` for a single-character `old`. -/
def pyReplaceChar (old : Char) (new : String) (s : String) : String :=
  ⟨go s.data⟩
where
  go : List Char → List Char
    | [] => []
    | c :: rest => if c = old then new.data ++ go rest else c :: go rest

/-- Python `s.lower()` (the strings appearing here are ASCII). -/
def pyLower (s : String) : String := ⟨s.data.map Char.toLower⟩

/-- Python exceptions that the embedded fragment can raise or catch. -/
inductive PyExc
  | typeError
  | indexError
  | keyError
  | valueError
  deriving DecidableEq

/-- Lookup at an already wrap-adjusted index. -/
def pyIndexAt {α : Type} (l : List α) (j : Int) : Except PyExc α :=
  if j < 0 then .error .indexError
  else
    match l.get? j.toNat with
    | some a => .ok a
    | none => .error .indexError

/-- Python list indexing `l[i]` with negative-index wrap-around; raises
`IndexError` when out of range. -/
def pyIndex {α : Type} (l : List α) (i : Int) : Except PyExc α :=
  pyIndexAt l (if i < 0 then i + l.length else i)

/-- Value of a list of decimal digits. -/
def digitsVal (l : List Char) : Nat :=
  l.foldl (fun n c => n * 10 + (c.toNat - '0'.toNat)) 0

/-- Python `int(s)` restricted to the plain decimal forms (optionally
`-`-signed) that reach it here; anything else raises `ValueError`. -/
def pyInt (s : String) : Except PyExc Int :=
  match s.data with
  | [] => .error .valueError
  | '-' :: rest =>
    if rest ≠ [] ∧ rest.all Char.isDigit then .ok (-(digitsVal rest : Int))
    else .error .valueError
  | l =>
    if l.all Char.isDigit then .ok (digitsVal l : Int)
    else .error .valueError

/-- Python `dict[k]` lookup on an association list; raises `KeyError` when
the key is missing. -/
def dictLookup (d : List (String × String)) (k : String) : Except PyExc String :=
  match d.find? (fun kv => kv.1 = k) with
  | some kv => .ok kv.2
  | none => .error .keyError

/-- Last component of a `/`-path: `pathlib.Path(p).name`. -/
def entryName (p : String) : String := (pySplit '/' p).getLastD p

/-- Index (from the left) of the last `.` of a name, if any. -/
def lastDotIdx (l : List Char) : Option Nat :=
  match l with
  | [] => none
  | c :: rest =>
    match lastDotIdx rest with
    | some i => some (i + 1)
    | none => if c = '.' then some 0 else none

/-- Python `pathlib.Path(name).suffix` for a bare name: the part from the
last dot on, empty when the last dot is leading or missing. -/
def nameSfx (name : String) : String :=
  match lastDotIdx name.data with
  | some i => if 0 < i ∧ i + 1 < name.data.length then ⟨name.data.drop i⟩ else ""
  | none => ""

/-- Python `pathlib.Path(name).with_suffix("")` for a bare name. -/
def nameStem (name : String) : String :=
  match lastDotIdx name.data with
  | some i => if 0 < i ∧ i + 1 < name.data.length then ⟨name.data.take i⟩ else name
  | none => name

/-- Python `pathlib.Path(p).suffix`: the suffix of the last component. -/
def pathSfx (p : String) : String := nameSfx (entryName p)

/-! ### Path ordering

`sorted(...)` on `pathlib.Path` objects compares the tuples of path
components (each component an ordinary string compared by code point).
The boolean comparators below implement exactly that, structurally. -/

/-- Lexicographic strict order on lists over a strict element comparator
(shorter prefixes sort first), as Python compares sequences. -/
def lexLtB {α : Type} (ltE : α → α → Bool) : List α → List α → Bool
  | [], [] => false
  | [], _ :: _ => true
  | _ :: _, [] => false
  | a :: as, b :: bs =>
    if ltE a b then true else if ltE b a then false else lexLtB ltE as bs

/-- Python `<` on characters (by code point). -/
def charLtB (a b : Char) : Bool := decide (a < b)

/-- Python `<` on strings. -/
def strLtB (a b : String) : Bool := lexLtB charLtB a.data b.data

/-- Python `<` on tuples of strings. -/
def partsLtB (a b : List String) : Bool := lexLtB strLtB a b

/-- Components of a `/`-path, the sort key `pathlib` uses. -/
def pathParts (p : String) : List String := pySplit '/' p

/-- Non-strict path order: `a` does not come after `b`. -/
def pathLeB (a b : String) : Bool := !(partsLtB (pathParts b) (pathParts a))

/-- The ordering relation under which the source's `sorted(...)` calls on
path lists are modelled. -/
def pathLe (a b : String) : Prop := pathLeB a b = true

instance : DecidableRel pathLe := fun _ _ => inferInstanceAs (Decidable (_ = true))

/-- Python `sorted(paths)`. -/
def pySortPaths (l : List String) : List String := List.insertionSort pathLe l

/-- Python `sorted(paths, reverse=True)` (all paths here are distinct, so
reversing the ascending sort is exact). -/
def pySortPathsRev (l : List String) : List String := (pySortPaths l).reverse

/-! ### The regex `re.search(r"\((\d+)\)", s)`

`re.search` yields the leftmost match; the pattern matches a `(`, one or
more digits (greedy, which against the closing-`)` test is the maximal
digit run), then `)`.  We return `int(match.group(1))` directly. -/

/-- Leftmost `(<digits>)` match of the pattern in a character list,
returning the digit group's integer value. -/
def reSearchParen : List Char → Option Nat
  | [] => none
  | c :: rest =>
    if c = '(' then
      let ds := rest.takeWhile Char.isDigit
      let after := rest.drop ds.length
      if ds ≠ [] ∧ after.headD ' ' = ')' then some (digitsVal ds)
      else reSearchParen rest
    else reSearchParen rest

/-- Leftmost `(<digits>)` counter in a string (applied by the source to the
full `str(x)` of each globbed path). -/
def searchCounter (s : String) : Option Nat := reSearchParen s.data

/-! ### `_check_for_dupes` (image_organizer.py lines 380-398)

The month directory's `*.*` glob is passed in as the list of full path
strings `str(x)`.  The loop body overwrites `get_last_dupe` on every
iteration, so after the loop it holds the regex result of the final element
of the reverse-sorted listing. -/

/-- Embedding of `ImageOrganizer._check_for_dupes`: `globbed` is the list of
`str(x)` for `x` in the month directory's `*.*` glob. -/
def check_for_dupes (globbed : List String) (file_name : String) : String :=
  let get_last_dupe := (pySortPathsRev globbed).foldl (fun _ x => searchCounter x) none
  let dupe :=
    match get_last_dupe with
    | some n => "(" ++ toString (n + 1) ++ ")"
    | none => "(1)"
  nameStem (entryName file_name) ++ dupe ++ nameSfx file_name


/-! ### Media-kind classification -/

/-- Result of `MediaInfo.parse(file, ...)` as the source consumes it: either
the list of `track_type` strings of `mi.tracks` (the first entry is
mediainfo's `General` track), or an exception from the probe. -/
inductive ProbeResult
  | ok (trackTypes : List String)
  | exc
  deriving DecidableEq

/-- Embedding of `ImageOrganizer._check_filetype_media_info` (lines 299-322):
returns `mi.tracks[1].track_type` verbatim; an `IndexError` (fewer than two
tracks) returns `None`, any other exception is logged and returns `None`. -/
def check_filetype_media_info (probe : ProbeResult) : Option String :=
  match probe with
  | .ok trackTypes => trackTypes.get? 1
  | .exc => none

/-- Substring test `needle in hay` (Python `in` on strings). -/
def strContainsSub (hay needle : String) : Bool :=
  go hay.data
where
  startsWith : List Char → List Char → Bool
    | [], _ => true
    | _ :: _, [] => false
    | a :: as, b :: bs => a = b && startsWith as bs
  go : List Char → Bool
    | [] => startsWith needle.data []
    | c :: rest => startsWith needle.data (c :: rest) || go rest

/-- Embedding of `ImageOrganizer._check_filetype_mime` (lines 408-416):
`guessStr` is Python's `str(mimetypes.guess_type(file))`, e.g.
`"('image/jpeg', None)"`; the source substring-tests it. -/
def check_filetype_mime (guessStr : String) : Option String :=
  if strContainsSub guessStr "image" then some "Image"
  else if strContainsSub guessStr "video" then some "Video"
  else none

/-- Truthiness of the `media_type` / `file_creation_date` values
(`None` and `""` are falsy). -/
def pyTruthy (v : Option String) : Bool :=
  match v with
  | none => false
  | some s => !(s.data.isEmpty)

/-- The three category trees of the organizer. -/
inductive Dest
  | image
  | video
  | unknown
  deriving DecidableEq

/-- Embedding of the `media_type` dispatch of `parse_dir` (lines 149-164):
`some Dest` is the sorter invoked, `none` means no branch fires (this
happens for truthy values other than `"Image"`/`"Video"`). -/
def routeFile (media_type : Option String) : Option Dest :=
  if pyTruthy media_type then
    if media_type = some "Image" then some .image
    else if media_type = some "Video" then some .video
    else none
  else some .unknown

/-! ### The function `_get_exif` (lines 324-378)

`Image.open(file).getexif()` and the subsequent `ExifOffset`/`get_ifd`
extraction are external PIL calls; the environment supplies either the
exception class of the failed open (the first `try` catches every
exception, splitting `UnidentifiedImageError`/`OSError` from the logged
rest) or the tag dictionary `exif_dict` that the comprehension over
`info.items()` produces. -/

/-- Outcome of the PIL interaction at the head of `_get_exif`. -/
inductive OpenResult
  | errCaught
  | errLogged
  | ok (exif_dict : List (String × String))
  deriving DecidableEq

/-- Body of the second `try:` of `_get_exif` (lines 355-376), with the
operations that can raise made explicit, in source order. -/
def get_exif_try (exif_dict : List (String × String)) : Except PyExc (Option String) :=
  match dictLookup exif_dict "DateTimeOriginal" with
  | .error e => .error e
  | .ok raw =>
    let exif_date_time_original := pyReplaceChar '\x00' "" raw
    if exif_date_time_original = "00-00-0000 [00:00:00]" then
      .ok none
    else
      let parts := pySplit ' ' exif_date_time_original
      match pyIndex parts 0 with
      | .error e => .error e
      | .ok date_part =>
        let date_month := pySplit ':' date_part
        match pyIndex parts 1 with
        | .error e => .error e
        | .ok time_part =>
          let date_time := pyReplaceChar ':' "." time_part
          match pyIndex date_month 1 with
          | .error e => .error e
          | .ok m1 =>
            match pyIndex date_month 2 with
            | .error e => .error e
            | .ok m2 =>
              match pyIndex date_month 0 with
              | .error e => .error e
              | .ok m0 =>
                .ok (some (m1 ++ "-" ++ m2 ++ "-" ++ m0 ++ " " ++ "[" ++ date_time ++ "]"))

/-- Embedding of `ImageOrganizer._get_exif`: `Except.error` is an exception
escaping to the caller, `.ok none` is Python's `None` return. -/
def get_exif (src : OpenResult) : Except PyExc (Option String) :=
  match src with
  | .errCaught => .ok none
  | .errLogged => .ok none
  | .ok exif_dict =>
    if exif_dict.isEmpty then
      .ok none
    else
      match get_exif_try exif_dict with
      | .ok v => .ok v
      | .error .keyError => .ok none
      | .error .indexError => .ok none
      | .error e => .error e

/-- Embedding of lines 143-147 of `parse_dir`: use the exif result unless it
is falsy, else the modification-time string. -/
def resolveTime (exifVal : Option String) (mtime : String) : String :=
  match exifVal with
  | some s => if s.data.isEmpty then mtime else s
  | none => mtime

/-! ### Destination path construction (`_img_sorter` etc., lines 179-298)

`_img_sorter`, `_video_sorter` and `_unknown_sorter` are verbatim copies of
each other except for the category directory; `sorterDest` embeds their
common destination computation (`get_year`, `get_month`, `file_name`,
`date_dir_file`). -/

/-- Python's `calendar.month_name` sequence (index 0 is empty). -/
def month_name : List String :=
  ["", "January", "February", "March", "April", "May", "June", "July",
    "August", "September", "October", "November", "December"]

/-- Destination path `date_dir_file` computed by the sorters from the
category directory, the resolved time string and the source file path. -/
def sorterDest (cat_dir time fpath : String) : Except PyExc String :=
  match pyIndex (pySplit ' ' time) 0 with
  | .error e => .error e
  | .ok date_part =>
    let bits := pySplit '-' date_part
    match pyIndex bits 2 with
    | .error e => .error e
    | .ok get_year =>
      match pyIndex bits 0 with
      | .error e => .error e
      | .ok m0 =>
        match pyInt m0 with
        | .error e => .error e
        | .ok mnum =>
          match pyIndex month_name mnum with
          | .error e => .error e
          | .ok mraw =>
            let get_month := pyLower mraw
            let file_name := pyLower (time ++ pathSfx fpath)
            .ok (cat_dir ++ "/" ++ get_year ++ "/" ++ get_month ++ "/" ++ file_name)

/-! ### Constructor state (`__init__` and `_make_directories`) -/

/-- Constructor-time configuration of `ImageOrganizer` (lines 16-49). -/
structure OrganizerConfig where
  working_dir : String
  image_dir_name : String
  video_dir_name : String
  unknown_dir_name : String
  move_file : Bool
  fast_parse : Bool
  deriving DecidableEq

/-- Category directory set up by `_make_directories` (lines 64-76). -/
def imageDir (org : OrganizerConfig) : String :=
  org.working_dir ++ "/" ++ org.image_dir_name

/-- Category directory set up by `_make_directories`. -/
def videoDir (org : OrganizerConfig) : String :=
  org.working_dir ++ "/" ++ org.video_dir_name

/-- Category directory set up by `_make_directories`. -/
def unknownDir (org : OrganizerConfig) : String :=
  org.working_dir ++ "/" ++ org.unknown_dir_name

/-- Category directory for a routed destination. -/
def catDir (org : OrganizerConfig) : Dest → String
  | .image => imageDir org
  | .video => videoDir org
  | .unknown => unknownDir org

/-- Per-run counters of the organizer. -/
structure Counters where
  total_images : Nat
  total_videos : Nat
  total_unknown : Nat
  deriving DecidableEq

/-- Counter initialisation in `__init__` (lines 57-59). -/
def initCounters : Counters := ⟨0, 0, 0⟩

/-- Counter update footprint of the three `media_type` branches of
`parse_dir` (lines 152-164). -/
def bump (c : Counters) : Dest → Counters
  | .image => ⟨c.total_images + 1, c.total_videos, c.total_unknown⟩
  | .video => ⟨c.total_images, c.total_videos + 1, c.total_unknown⟩
  | .unknown => ⟨c.total_images, c.total_videos, c.total_unknown + 1⟩


/-! ### Directory walk and batch driver (`parse_dir`, lines 78-177)

The filesystem below the parsed directory is supplied as a list of
entries; each entry records its path, whether it sits at the top level of
the parsed directory, whether it is a regular file, and what the external
probes (`MediaInfo.parse`, `mimetypes.guess_type`, PIL, `stat`) report for
it.  Callback and progress output are recorded as an event trace; an
uncaught Python exception ends the run with `exc` set at the point the
source would raise. -/

/-- One filesystem entry under the parsed directory, together with the
responses of the external probes for it. -/
structure FSEntry where
  path : String
  topLevel : Bool
  isFile : Bool
  probe : ProbeResult
  mimeStr : String
  exifSrc : OpenResult
  mtime : String
  deriving DecidableEq

/-- Path order lifted to entries. -/
def entryLe (a b : FSEntry) : Prop := pathLe a.path b.path

instance : DecidableRel entryLe := fun _ _ => inferInstanceAs (Decidable (_ = true))

/-- Whether the glob pattern `*.*` matches an entry's final name component
(`fnmatch`: any name containing a dot). -/
def nameHasDot (p : String) : Bool := (entryName p).data.any (fun c => c = '.')

/-- The list `glob_dir` of `parse_dir` (lines 95-101): `rglob("*.*")` over
all entries when `recursive_search`, `glob("*.*")` over the top level
otherwise, sorted. -/
def globDir (recursive_search : Bool) (fs : List FSEntry) : List FSEntry :=
  List.insertionSort entryLe
    ((if recursive_search then fs else fs.filter (fun e => e.topLevel)).filter
      (fun e => nameHasDot e.path))

/-- Observable actions of a `parse_dir` run, in order. -/
inductive Event
  | printProgress (i total : Nat)
  | cbProgress (i total : Nat)
  | placed (d : Dest) (dest : String)
  | summary (imgs vids unk : Nat)
  deriving DecidableEq

/-- State of the `parse_dir` loop: the organizer counters, the emitted
events, the `progress` counter, and the pending uncaught exception. -/
structure LoopState where
  counters : Counters
  events : List Event
  progress : Nat
  exc : Option PyExc
  deriving DecidableEq

/-- One iteration of the `for searched_file in glob_dir` loop of
`parse_dir` (lines 108-167).  When an exception is already pending the
iteration never happens (the loop has been aborted). -/
def step (org : OrganizerConfig) (get_progress callbackGiven : Bool) (total : Nat)
    (st : LoopState) (e : FSEntry) : LoopState :=
  match st.exc with
  | some _ => st
  | none =>
    if e.isFile then
      if get_progress || callbackGiven then
        let ev0 :=
          if callbackGiven then Event.cbProgress st.progress total
          else Event.printProgress st.progress total
        let media_type :=
          if org.fast_parse then check_filetype_mime e.mimeStr
          else check_filetype_media_info e.probe
        match get_exif e.exifSrc with
        | .error ex => ⟨st.counters, st.events ++ [ev0], st.progress, some ex⟩
        | .ok exifVal =>
          let file_creation_date := resolveTime exifVal e.mtime
          match routeFile media_type with
          | none => ⟨st.counters, st.events ++ [ev0], st.progress + 1, none⟩
          | some d =>
            match sorterDest (catDir org d) file_creation_date e.path with
            | .error ex => ⟨st.counters, st.events ++ [ev0], st.progress, some ex⟩
            | .ok dest =>
              ⟨bump st.counters d, st.events ++ [ev0, Event.placed d dest],
                st.progress + 1, none⟩
      else ⟨st.counters, st.events, st.progress + 1, none⟩
    else ⟨st.counters, st.events, st.progress + 1, none⟩

/-- Outcome of a `parse_dir` run: final counters, event trace and the
uncaught exception, if one was raised. -/
structure RunResult where
  counters : Counters
  events : List Event
  exc : Option PyExc
  deriving DecidableEq

/-- Embedding of `ImageOrganizer.parse_dir` for a freshly constructed
organizer (counters start from `initCounters`): runs the loop over
`glob_dir` and then the end-of-run callback block (lines 169-177), where
`callback(...)` on the absent callback raises `TypeError`. -/
def parse_dir (org : OrganizerConfig) (fs : List FSEntry)
    (get_progress recursive_search callbackGiven : Bool) : RunResult :=
  let glob_dir := globDir recursive_search fs
  let total_dir_files := glob_dir.length
  let fin := glob_dir.foldl (step org get_progress callbackGiven total_dir_files)
    ⟨initCounters, [], 1, none⟩
  match fin.exc with
  | some ex => ⟨fin.counters, fin.events, some ex⟩
  | none =>
    if get_progress || callbackGiven then
      if callbackGiven then
        ⟨fin.counters,
          fin.events ++
            [Event.summary fin.counters.total_images fin.counters.total_videos
              fin.counters.total_unknown],
          none⟩
      else ⟨fin.counters, fin.events, some .typeError⟩
    else ⟨fin.counters, fin.events, none⟩



/-! ### Order facts for the sort comparators

These establish that the modelled Python path order is a total preorder, so
that the sortedness and permutation lemmas of `List.insertionSort` apply. -/

theorem lexLtB_asymm {α : Type} {ltE : α → α → Bool}
    (hasym : ∀ x y, ltE x y = true → ltE y x = false) :
    ∀ a b, lexLtB ltE a b = true → lexLtB ltE b a = false
  | [], [] => by simp [lexLtB]
  | [], _ :: _ => by simp [lexLtB]
  | _ :: _, [] => by simp [lexLtB]
  | a :: as, b :: bs => by
    cases hab : ltE a b with
    | true =>
      intro _
      simp [lexLtB, hab, hasym a b hab]
    | false =>
      cases hba : ltE b a with
      | true => simp [lexLtB, hab, hba]
      | false =>
        simp only [lexLtB, hab, hba, if_false]
        exact lexLtB_asymm hasym as bs

theorem lexLtB_eq_of_not {α : Type} {ltE : α → α → Bool}
    (heq : ∀ x y, ltE x y = false → ltE y x = false → x = y) :
    ∀ a b, lexLtB ltE a b = false → lexLtB ltE b a = false → a = b
  | [], [] => by simp
  | [], _ :: _ => by simp [lexLtB]
  | _ :: _, [] => by intro _ h; cases h
  | a :: as, b :: bs => by
    cases hab : ltE a b with
    | true => simp [lexLtB, hab]
    | false =>
      cases hba : ltE b a with
      | true =>
        intro _ h
        simp [lexLtB, hba] at h
      | false =>
        simp only [lexLtB, hab, hba, if_false]
        intro h1 h2
        rw [heq a b hab hba, lexLtB_eq_of_not heq as bs h1 h2]

theorem lexLtB_trans {α : Type} {ltE : α → α → Bool}
    (htrans : ∀ x y z, ltE x y = true → ltE y z = true → ltE x z = true)
    (heq : ∀ x y, ltE x y = false → ltE y x = false → x = y) :
    ∀ a b c, lexLtB ltE a b = true → lexLtB ltE b c = true → lexLtB ltE a c = true
  | [], [], [] => by simp [lexLtB]
  | [], [], _ :: _ => by simp [lexLtB]
  | [], _ :: _, [] => by simp [lexLtB]
  | [], _ :: _, _ :: _ => by simp [lexLtB]
  | _ :: _, [], [] => by simp [lexLtB]
  | _ :: _, [], _ :: _ => by simp [lexLtB]
  | _ :: _, _ :: _, [] => by
    intro _ h
    simp [lexLtB] at h
  | a :: as, b :: bs, c :: cs => by
    cases hab : ltE a b with
    | true =>
      cases hbc : ltE b c with
      | true =>
        intro _ _
        simp [lexLtB, htrans a b c hab hbc]
      | false =>
        cases hcb : ltE c b with
        | true =>
          intro _ h
          simp [lexLtB, hbc, hcb] at h
        | false =>
          intro _ _
          have hbceq : b = c := heq b c hbc hcb
          rw [← hbceq]
          simp [lexLtB, hab]
    | false =>
      cases hba : ltE b a with
      | true =>
        intro h
        simp [lexLtB, hab, hba] at h
      | false =>
        have habeq : a = b := heq a b hab hba
        subst habeq
        cases hac : ltE a c with
        | true =>
          intro _ _
          simp [lexLtB, hac]
        | false =>
          cases hca : ltE c a with
          | true =>
            intro _ h
            simp [lexLtB, hac, hca] at h
          | false =>
            simp only [lexLtB, hab, hba, hac, hca, if_false]
            exact lexLtB_trans htrans heq as bs cs

theorem charLtB_trans (x y z : Char) :
    charLtB x y = true → charLtB y z = true → charLtB x z = true := by
  simp only [charLtB, decide_eq_true_eq]
  exact lt_trans

theorem charLtB_eq_of_not (x y : Char) :
    charLtB x y = false → charLtB y x = false → x = y := by
  simp only [charLtB, decide_eq_false_iff_not]
  intro h1 h2
  exact le_antisymm (le_of_not_lt h2) (le_of_not_lt h1)

theorem charLtB_asymm (x y : Char) : charLtB x y = true → charLtB y x = false := by
  simp only [charLtB, decide_eq_true_eq, decide_eq_false_iff_not]
  exact lt_asymm

theorem strLtB_asymm (x y : String) : strLtB x y = true → strLtB y x = false :=
  lexLtB_asymm charLtB_asymm x.data y.data

theorem strLtB_trans (x y z : String) :
    strLtB x y = true → strLtB y z = true → strLtB x z = true :=
  lexLtB_trans charLtB_trans charLtB_eq_of_not x.data y.data z.data

theorem strLtB_eq_of_not (x y : String) :
    strLtB x y = false → strLtB y x = false → x = y := by
  intro h1 h2
  cases x with
  | mk dx =>
    cases y with
    | mk dy =>
      rw [lexLtB_eq_of_not charLtB_eq_of_not dx dy h1 h2]

theorem partsLtB_asymm (x y : List String) : partsLtB x y = true → partsLtB y x = false :=
  lexLtB_asymm strLtB_asymm x y

theorem partsLtB_trans (x y z : List String) :
    partsLtB x y = true → partsLtB y z = true → partsLtB x z = true :=
  lexLtB_trans strLtB_trans strLtB_eq_of_not x y z

theorem partsLtB_eq_of_not (x y : List String) :
    partsLtB x y = false → partsLtB y x = false → x = y :=
  lexLtB_eq_of_not strLtB_eq_of_not x y

theorem pathLeB_total (a b : String) : pathLeB a b = true ∨ pathLeB b a = true := by
  simp only [pathLeB, Bool.not_eq_true']
  cases h : partsLtB (pathParts b) (pathParts a) with
  | true =>
    right
    exact partsLtB_asymm _ _ h
  | false =>
    left
    rfl

theorem pathLeB_trans (a b c : String) :
    pathLeB a b = true → pathLeB b c = true → pathLeB a c = true := by
  simp only [pathLeB, Bool.not_eq_true']
  intro hba hcb
  cases hca : partsLtB (pathParts c) (pathParts a) with
  | true =>
    cases hab : partsLtB (pathParts a) (pathParts b) with
    | true =>
      rw [partsLtB_trans _ _ _ hca hab] at hcb
      cases hcb
    | false =>
      have h : pathParts a = pathParts b := partsLtB_eq_of_not _ _ hab hba
      rw [h] at hca
      rw [hca] at hcb
      cases hcb
  | false => rfl

instance : IsTotal String pathLe :=
  ⟨fun a b => pathLeB_total a b⟩

instance : IsTrans String pathLe :=
  ⟨fun a b c => pathLeB_trans a b c⟩

instance : IsTotal FSEntry entryLe :=
  ⟨fun a b => pathLeB_total a.path b.path⟩

instance : IsTrans FSEntry entryLe :=
  ⟨fun a b c => pathLeB_trans a.path b.path c.path⟩


/-! ### Event accounting for the driver proofs -/

/-- Whether an event is a placement into category `d`. -/
def isPlacedTo (d : Dest) : Event → Bool
  | .placed d2 _ => decide (d2 = d)
  | _ => false

/-- Whether an event is a per-file progress report (print or callback). -/
def isProgressEv : Event → Bool
  | .printProgress _ _ => true
  | .cbProgress _ _ => true
  | _ => false

/-- Whether an event is the end-of-run summary callback. -/
def isSummaryEv : Event → Bool
  | .summary _ _ _ => true
  | _ => false

/-- Number of events satisfying `p`. -/
def countE (p : Event → Bool) (evs : List Event) : Nat := (evs.filter p).length

theorem countE_append (p : Event → Bool) (l1 l2 : List Event) :
    countE p (l1 ++ l2) = countE p l1 + countE p l2 := by
  simp [countE, List.filter_append]

theorem isPlacedTo_progress (d : Dest) (c : Bool) (i t : Nat) :
    isPlacedTo d (if c then Event.cbProgress i t else Event.printProgress i t) = false := by
  cases c <;> rfl

theorem isSummaryEv_progress (c : Bool) (i t : Nat) :
    isSummaryEv (if c then Event.cbProgress i t else Event.printProgress i t) = false := by
  cases c <;> rfl

theorem isProgressEv_progress (c : Bool) (i t : Nat) :
    isProgressEv (if c then Event.cbProgress i t else Event.printProgress i t) = true := by
  cases c <;> rfl

/-- Each loop iteration only appends events, and changes each counter by
exactly the number of appended placement events of its category; it never
emits a summary event. -/
theorem step_delta (org : OrganizerConfig) (gp cb : Bool) (total : Nat)
    (st : LoopState) (e : FSEntry) :
    ∃ evs,
      (step org gp cb total st e).events = st.events ++ evs ∧
      (step org gp cb total st e).counters.total_images =
        st.counters.total_images + countE (isPlacedTo .image) evs ∧
      (step org gp cb total st e).counters.total_videos =
        st.counters.total_videos + countE (isPlacedTo .video) evs ∧
      (step org gp cb total st e).counters.total_unknown =
        st.counters.total_unknown + countE (isPlacedTo .unknown) evs ∧
      countE isSummaryEv evs = 0 := by
  rcases st with ⟨c, evs0, pr, exc⟩
  cases exc with
  | some ex => exact ⟨[], by simp [step, countE]⟩
  | none =>
    cases hf : e.isFile with
    | false => exact ⟨[], by simp [step, hf, countE]⟩
    | true =>
      cases hg : gp || cb with
      | false => exact ⟨[], by simp [step, hf, hg, countE]⟩
      | true =>
        cases hx : get_exif e.exifSrc with
        | error ex =>
          refine ⟨[if cb then Event.cbProgress pr total else Event.printProgress pr total],
            ?_⟩
          simp [step, hf, hg, hx, countE, List.filter, isPlacedTo_progress,
            isSummaryEv_progress]
        | ok exifVal =>
          cases hfp : org.fast_parse with
          | true =>
            cases hr : routeFile (check_filetype_mime e.mimeStr) with
            | none =>
              refine ⟨[if cb then Event.cbProgress pr total
                else Event.printProgress pr total], ?_⟩
              simp [step, hf, hg, hx, hfp, hr, countE, List.filter, isPlacedTo_progress,
                isSummaryEv_progress]
            | some d =>
              cases hs : sorterDest (catDir org d) (resolveTime exifVal e.mtime) e.path with
              | error ex =>
                refine ⟨[if cb then Event.cbProgress pr total
                  else Event.printProgress pr total], ?_⟩
                simp [step, hf, hg, hx, hfp, hr, hs, countE, List.filter,
                  isPlacedTo_progress, isSummaryEv_progress]
              | ok dest =>
                refine ⟨[if cb then Event.cbProgress pr total
                  else Event.printProgress pr total, Event.placed d dest], ?_⟩
                cases cb <;> cases d <;>
                  simp [step, hf, hg, hx, hfp, hr, hs, countE, List.filter,
                    bump, isPlacedTo, isSummaryEv]
          | false =>
            cases hr : routeFile (check_filetype_media_info e.probe) with
            | none =>
              refine ⟨[if cb then Event.cbProgress pr total
                else Event.printProgress pr total], ?_⟩
              simp [step, hf, hg, hx, hfp, hr, countE, List.filter, isPlacedTo_progress,
                isSummaryEv_progress]
            | some d =>
              cases hs : sorterDest (catDir org d) (resolveTime exifVal e.mtime) e.path with
              | error ex =>
                refine ⟨[if cb then Event.cbProgress pr total
                  else Event.printProgress pr total], ?_⟩
                simp [step, hf, hg, hx, hfp, hr, hs, countE, List.filter,
                  isPlacedTo_progress, isSummaryEv_progress]
              | ok dest =>
                refine ⟨[if cb then Event.cbProgress pr total
                  else Event.printProgress pr total, Event.placed d dest], ?_⟩
                cases cb <;> cases d <;>
                  simp [step, hf, hg, hx, hfp, hr, hs, countE, List.filter,
                    bump, isPlacedTo, isSummaryEv]

/-- Whether processing entry `e` under this configuration raises no
exception (the raised/not-raised outcome of an iteration depends only on
the entry and the configuration, not on the loop state). -/
def stepOk (org : OrganizerConfig) (gp cb : Bool) (e : FSEntry) : Bool :=
  ((step org gp cb 0 ⟨initCounters, [], 1, none⟩ e).exc).isNone

/-- An iteration from an exception-free state, on an entry whose processing
raises nothing, stays exception-free and emits exactly one progress event
when the entry is a regular file (none otherwise). -/
theorem step_progress_count (org : OrganizerConfig) (gp cb : Bool) (total : Nat)
    (st : LoopState) (e : FSEntry) (hexc : st.exc = none)
    (hguard : (gp || cb) = true) (hok : stepOk org gp cb e = true) :
    (step org gp cb total st e).exc = none ∧
    countE isProgressEv (step org gp cb total st e).events =
      countE isProgressEv st.events + (if e.isFile then 1 else 0) := by
  rcases st with ⟨c, evs0, pr, exc⟩
  simp only at hexc
  subst hexc
  cases hf : e.isFile with
  | false => simp [step, hf]
  | true =>
      cases hx : get_exif e.exifSrc with
      | error ex =>
        exfalso
        simp [stepOk, step, hf, hguard, hx] at hok
      | ok exifVal =>
        cases hfp : org.fast_parse with
        | true =>
          cases hr : routeFile (check_filetype_mime e.mimeStr) with
          | none =>
            simp [step, hf, hguard, hx, hfp, hr, countE, List.filter, isProgressEv_progress]
          | some d =>
            cases hs : sorterDest (catDir org d) (resolveTime exifVal e.mtime) e.path with
            | error ex =>
              exfalso
              simp [stepOk, step, hf, hguard, hx, hfp, hr, hs] at hok
            | ok dest =>
              cases cb <;>
                simp [step, hf, hguard, hx, hfp, hr, hs, countE, List.filter,
                  isProgressEv]
        | false =>
          cases hr : routeFile (check_filetype_media_info e.probe) with
          | none =>
            simp [step, hf, hguard, hx, hfp, hr, countE, List.filter, isProgressEv_progress]
          | some d =>
            cases hs : sorterDest (catDir org d) (resolveTime exifVal e.mtime) e.path with
            | error ex =>
              exfalso
              simp [stepOk, step, hf, hguard, hx, hfp, hr, hs] at hok
            | ok dest =>
              cases cb <;>
                simp [step, hf, hguard, hx, hfp, hr, hs, countE, List.filter,
                  isProgressEv]

/-- Folding the loop over any entry list only appends events, accumulates
each counter by its category's placement count, and emits no summary. -/
theorem foldl_delta (org : OrganizerConfig) (gp cb : Bool) (total : Nat) :
    ∀ (l : List FSEntry) (st : LoopState),
      ∃ evs,
        (l.foldl (step org gp cb total) st).events = st.events ++ evs ∧
        (l.foldl (step org gp cb total) st).counters.total_images =
          st.counters.total_images + countE (isPlacedTo .image) evs ∧
        (l.foldl (step org gp cb total) st).counters.total_videos =
          st.counters.total_videos + countE (isPlacedTo .video) evs ∧
        (l.foldl (step org gp cb total) st).counters.total_unknown =
          st.counters.total_unknown + countE (isPlacedTo .unknown) evs ∧
        countE isSummaryEv evs = 0
  | [], st => ⟨[], by simp [countE]⟩
  | e :: l, st => by
    obtain ⟨evs1, h1, hi1, hv1, hu1, hs1⟩ := step_delta org gp cb total st e
    obtain ⟨evs2, h2, hi2, hv2, hu2, hs2⟩ :=
      foldl_delta org gp cb total l (step org gp cb total st e)
    refine ⟨evs1 ++ evs2, ?_, ?_, ?_, ?_, ?_⟩
    · simp [List.foldl_cons, h2, h1]
    · simp [List.foldl_cons, hi2, hi1, countE_append, Nat.add_assoc]
    · simp [List.foldl_cons, hv2, hv1, countE_append, Nat.add_assoc]
    · simp [List.foldl_cons, hu2, hu1, countE_append, Nat.add_assoc]
    · simp [countE_append, hs1, hs2]

/-- Folding the loop over exception-free entries from an exception-free
state stays exception-free and emits exactly one progress event per regular
file, in particular never aborting early. -/
theorem foldl_progress (org : OrganizerConfig) (gp cb : Bool) (total : Nat)
    (hguard : (gp || cb) = true) :
    ∀ (l : List FSEntry) (st : LoopState), st.exc = none →
      (∀ e ∈ l, stepOk org gp cb e = true) →
      (l.foldl (step org gp cb total) st).exc = none ∧
      countE isProgressEv (l.foldl (step org gp cb total) st).events =
        countE isProgressEv st.events +
          (l.filter (fun e => e.isFile)).length
  | [], st, hexc, _ => by simp [hexc]
  | e :: l, st, hexc, hok => by
    obtain ⟨hexc1, hcnt1⟩ :=
      step_progress_count org gp cb total st e hexc hguard (hok e (by simp))
    obtain ⟨hexc2, hcnt2⟩ :=
      foldl_progress org gp cb total hguard l (step org gp cb total st e) hexc1
        (fun x hx => hok x (by simp [hx]))
    refine ⟨by simpa using hexc2, ?_⟩
    rw [List.foldl_cons, hcnt2, hcnt1]
    cases hf : e.isFile <;> simp [hf, List.filter_cons, Nat.add_assoc, Nat.add_comm]


/-! ### Supporting lemmas for the claim theorems -/

theorem dictLookup_error (d : List (String × String)) (k : String) (e : PyExc)
    (h : dictLookup d k = .error e) : e = .keyError := by
  unfold dictLookup at h
  split at h
  · cases h
  · injection h with h2
    exact h2.symm

theorem pyIndexAt_error {α : Type} (l : List α) (j : Int) (e : PyExc)
    (h : pyIndexAt l j = .error e) : e = .indexError := by
  unfold pyIndexAt at h
  split at h
  · injection h with h2
    exact h2.symm
  · split at h
    · cases h
    · injection h with h2
      exact h2.symm

theorem pyIndex_error {α : Type} (l : List α) (i : Int) (e : PyExc)
    (h : pyIndex l i = .error e) : e = .indexError :=
  pyIndexAt_error l _ e h

/-- The second `try:` of `_get_exif` can only raise `KeyError` (tag lookup)
or `IndexError` (list indexing), exactly what its `except` clause names. -/
theorem get_exif_try_error (d : List (String × String)) (e : PyExc)
    (h : get_exif_try d = .error e) : e = .keyError ∨ e = .indexError := by
  unfold get_exif_try at h
  split at h
  next e1 heq =>
    injection h with h2
    subst h2
    exact Or.inl (dictLookup_error _ _ _ heq)
  next raw heq =>
    dsimp only at h
    split at h
    · cases h
    · split at h
      next e2 heq2 =>
        injection h with h2
        subst h2
        exact Or.inr (pyIndex_error _ _ _ heq2)
      next dp heq2 =>
        split at h
        next e3 heq3 =>
          injection h with h2
          subst h2
          exact Or.inr (pyIndex_error _ _ _ heq3)
        next tp heq3 =>
          split at h
          next e4 heq4 =>
            injection h with h2
            subst h2
            exact Or.inr (pyIndex_error _ _ _ heq4)
          next m1 heq4 =>
            split at h
            next e5 heq5 =>
              injection h with h2
              subst h2
              exact Or.inr (pyIndex_error _ _ _ heq5)
            next m2 heq5 =>
              split at h
              next e6 heq6 =>
                injection h with h2
                subst h2
                exact Or.inr (pyIndex_error _ _ _ heq6)
              next m0 heq6 => cases h

theorem pyLower_append (a b : String) : pyLower (a ++ b) = pyLower a ++ pyLower b := by
  cases a with
  | mk da =>
    cases b with
    | mk db =>
      show String.mk ((da ++ db).map Char.toLower) =
        String.mk (da.map Char.toLower) ++ String.mk (db.map Char.toLower)
      rw [List.map_append]
      rfl

theorem countE_zero_not_mem {p : Event → Bool} {evs : List Event}
    (h : countE p evs = 0) {ev : Event} (hm : ev ∈ evs) (hp : p ev = true) : False := by
  have h1 : ev ∈ evs.filter p := List.mem_filter.mpr ⟨hm, hp⟩
  have h2 : evs.filter p = [] := List.length_eq_zero.mp h
  rw [h2] at h1
  cases h1

/-! ### Shared concrete fixtures for the evaluation theorems -/

/-- Default-flavoured organizer: output root `out`, standard category
directory names, copy mode, accurate (mediainfo) classification. -/
def orgEx : OrganizerConfig := ⟨"out", "images", "videos", "unknown", false, false⟩

/-- A regular image file carrying the capture tag `2013:10:01 09:17:50`. -/
def imgEntry : FSEntry :=
  ⟨"pics/IMG_1.JPG", true, true, .ok ["General", "Image"], "('image/jpeg', None)",
    .ok [("DateTimeOriginal", "2013:10:01 09:17:50")], "05-05-2020 [10.00.00]"⟩

/-- A regular file whose mediainfo probe reports an `Audio` track. -/
def audioEntry : FSEntry :=
  ⟨"pics/song.mp3", true, true, .ok ["General", "Audio"], "('audio/mpeg', None)",
    .errCaught, "05-05-2020 [10.00.00]"⟩

/-- A regular file whose name contains no dot. -/
def readmeEntry : FSEntry :=
  ⟨"pics/README", true, true, .ok ["General", "Image"], "(None, None)",
    .errCaught, "05-05-2020 [10.00.00]"⟩


/-! ### Claim theorems -/

/-- C1: evaluation of the code at the failing input.  After three copy-mode
runs of one unchanged source file the month directory holds the original
and its `(1)` and `(2)` duplicates.  On the fourth run `_check_for_dupes`
takes the counter of the final element of the reverse-sorted listing (the
lexicographically smallest entry, `...(1).jpg`), so it resolves the
collision to the `(2)` name again — the name of a file that already exists
— and the following `copy2`/`move` overwrites that file.  Collision
resolution therefore does overwrite existing content, and the counters are
not strictly increasing across re-runs. -/
theorem c1_fourth_run_overwrites :
    check_for_dupes
        ["out/images/2013/october/10-01-2013 [09.17.50](1).jpg",
          "out/images/2013/october/10-01-2013 [09.17.50](2).jpg",
          "out/images/2013/october/10-01-2013 [09.17.50].jpg"]
        "10-01-2013 [09.17.50].jpg" = "10-01-2013 [09.17.50](2).jpg" ∧
    entryName "out/images/2013/october/10-01-2013 [09.17.50](2).jpg" =
      "10-01-2013 [09.17.50](2).jpg" := by
  exact ⟨by decide, by decide⟩

/-- C2: evaluation of the code at the spec's own scenario.  With
`a(1).jpg`, `a(3).jpg` (and the colliding original `a.jpg`) in the month
directory, the next colliding file named `a.jpg` is assigned `a(2).jpg`,
not the claimed `a(4).jpg`: the loop keeps only the regex result of the
last reverse-sorted entry (the smallest, `a(1).jpg`), not the highest
counter. -/
theorem c2_counter_not_highest_plus_one :
    check_for_dupes
        ["out/images/2013/october/a(1).jpg", "out/images/2013/october/a(3).jpg",
          "out/images/2013/october/a.jpg"] "a.jpg" = "a(2).jpg" ∧
    check_for_dupes
        ["out/images/2013/october/a(1).jpg", "out/images/2013/october/a(3).jpg",
          "out/images/2013/october/a.jpg"] "a.jpg" ≠ "a(4).jpg" := by
  exact ⟨by decide, by decide⟩

/-- C3: evaluation at the failing input.  In accurate mode the classifier
returns `mi.tracks[1].track_type` verbatim, so a file whose second
mediainfo track is an `Audio` track classifies as `"Audio"` — outside
{Image, Video, Unknown}.  `parse_dir` then fires none of its three
branches: the file is placed in no category tree and no counter is
incremented (the run's summary reports 0/0/0). -/
theorem c3_audio_track_leaves_file_unplaced :
    check_filetype_media_info (.ok ["General", "Audio"]) = some "Audio" ∧
    routeFile (some "Audio") = none ∧
    parse_dir orgEx [audioEntry] true true true =
      ⟨⟨0, 0, 0⟩, [.cbProgress 1 1, .summary 0 0 0], none⟩ := by
  refine ⟨rfl, rfl, by decide⟩

/-- C4: evaluation at the failing input.  With `get_progress=False` and no
callback, the entire per-file pipeline (progress, classifier, timestamp
resolver, placement, counter update) sits inside the dead
`if get_progress or callback:` branch, so a directory holding one regular
image file produces no events and leaves every counter at zero. -/
theorem c4_no_progress_no_callback_skips_processing :
    parse_dir orgEx [imgEntry] false true false = ⟨⟨0, 0, 0⟩, [], none⟩ ∧
    imgEntry.isFile = true ∧ nameHasDot imgEntry.path = true := by
  exact ⟨by decide, rfl, by decide⟩

/-- C5: evaluation at the failing input.  With `get_progress=True` and no
callback the run prints per-file progress and processes (places and
counts) the file, but the unconditional end-of-run `callback({...})` call
invokes `None` and raises `TypeError` instead of completing. -/
theorem c5_final_callback_raises_type_error :
    parse_dir orgEx [imgEntry] true true false =
      ⟨⟨1, 0, 0⟩,
        [.printProgress 1 1,
          .placed .image "out/images/2013/october/10-01-2013 [09.17.50].jpg"],
        some .typeError⟩ := by
  decide

/-- C6: evaluation at the failing input.  For the native all-zero sentinel
`0000:00:00 00:00:00`, the guard of `_get_exif` compares against the
reformatted-shape literal `"00-00-0000 [00:00:00]"` (which matches neither
the raw tag nor the value the function later builds), so the tag is
reformatted to `"00-00-0000 [00.00.00]"` and returned; being truthy it is
used as the resolved timestamp instead of the modification time. -/
theorem c6_zero_sentinel_timestamp_used :
    get_exif (.ok [("DateTimeOriginal", "0000:00:00 00:00:00")]) =
      .ok (some "00-00-0000 [00.00.00]") ∧
    resolveTime (some "00-00-0000 [00.00.00]") "05-05-2020 [10.00.00]" =
      "00-00-0000 [00.00.00]" := by
  exact ⟨rfl, rfl⟩

/-- C7 counterexample: a regular file whose name contains no dot is missed
by the `*.*` glob, so a directory holding only `pics/README` is processed
as empty — no progress event, no placement, all counters zero — even
though the entry is a regular file under the root. -/
theorem c7_extensionless_file_omitted :
    readmeEntry.isFile = true ∧
    parse_dir orgEx [readmeEntry] true true true =
      ⟨⟨0, 0, 0⟩, [.summary 0 0 0], none⟩ := by
  exact ⟨rfl, by decide⟩

/-- C7 (amended): `parse_dir` enumerates exactly the entries whose final
name component contains a dot (the `*.*` glob) — all nesting levels when
`recursive_search=True`, only the top level otherwise — in sorted path
order; of those it processes exactly the regular files, emitting one
progress record each, provided progress or a callback is requested and no
iteration raises.  Files whose names lack a dot are omitted. -/
theorem c7_walk_enumeration (org : OrganizerConfig) (fs : List FSEntry)
    (gp rec cb : Bool) (hguard : (gp || cb) = true)
    (hok : ∀ e ∈ globDir rec fs, stepOk org gp cb e = true) :
    (∀ e, e ∈ globDir rec fs ↔
      (e ∈ fs ∧ (rec = true ∨ e.topLevel = true) ∧ nameHasDot e.path = true)) ∧
    List.Sorted entryLe (globDir rec fs) ∧
    countE isProgressEv (parse_dir org fs gp rec cb).events =
      ((globDir rec fs).filter (fun e => e.isFile)).length := by
  obtain ⟨hexc, hcount⟩ :=
    foldl_progress org gp cb (globDir rec fs).length hguard (globDir rec fs)
      ⟨initCounters, [], 1, none⟩ rfl hok
  refine ⟨?_, List.sorted_insertionSort entryLe _, ?_⟩
  · intro e
    cases rec with
    | true => simp [globDir, List.mem_filter]
    | false =>
      simp only [globDir, List.mem_insertionSort, List.mem_filter,
        Bool.false_eq_true, false_or, if_false]
      constructor
      · rintro ⟨⟨h1, h2⟩, h3⟩
        exact ⟨h1, h2, h3⟩
      · rintro ⟨h1, h2, h3⟩
        exact ⟨⟨h1, h2⟩, h3⟩
  · unfold parse_dir
    dsimp only
    rw [hexc]
    cases cb with
    | true =>
      simp only [Bool.or_true, if_true]
      rw [countE_append, hcount]
      simp [countE, List.filter, isProgressEv]
    | false =>
      cases gp with
      | false => cases hguard
      | true =>
        simp only [Bool.or_false, Bool.false_eq_true, if_true, if_false]
        rw [hcount]
        simp [countE]

/-- C7 witness: the amended enumeration theorem applied to a concrete
two-entry directory (one image file with a dotted name, one extensionless
file), its hypotheses discharged by evaluation. -/
theorem c7_walk_enumeration_w :
    countE isProgressEv (parse_dir orgEx [imgEntry, readmeEntry] true true true).events =
      ((globDir true [imgEntry, readmeEntry]).filter (fun e => e.isFile)).length := by
  have h := c7_walk_enumeration orgEx [imgEntry, readmeEntry] true true true rfl (by decide)
  exact h.2.2

/-- C8: `_get_exif` never lets an exception escape: for every outcome of
the PIL interaction the embedded resolver returns a value (`.ok`), and for
each failure mode — open failure (caught or logged), empty tag dictionary,
missing `DateTimeOriginal` key, malformed tag value — that value is `None`,
which makes the caller fall back to the modification time. -/
theorem c8_get_exif_never_raises :
    (∀ src, ∃ v, get_exif src = .ok v) ∧
    get_exif .errCaught = .ok none ∧
    get_exif .errLogged = .ok none ∧
    get_exif (.ok []) = .ok none ∧
    get_exif (.ok [("Make", "X")]) = .ok none ∧
    get_exif (.ok [("DateTimeOriginal", "garbage")]) = .ok none := by
  refine ⟨?_, rfl, rfl, rfl, rfl, rfl⟩
  intro src
  cases src with
  | errCaught => exact ⟨none, rfl⟩
  | errLogged => exact ⟨none, rfl⟩
  | ok d =>
    cases hd : d.isEmpty with
    | true => exact ⟨none, by simp [get_exif, hd]⟩
    | false =>
      cases h : get_exif_try d with
      | ok v => exact ⟨v, by simp [get_exif, hd, h]⟩
      | error e =>
        rcases get_exif_try_error d e h with he | he <;> subst he <;>
          exact ⟨none, by simp [get_exif, hd, h]⟩

/-- C9: round-trip of the embedded capture tag `2013:10:01 09:17:50`: the
resolver reformats it to `10-01-2013 [09.17.50]`, and for any source file
path the image sorter's destination is
`<image root>/2013/october/10-01-2013 [09.17.50]<lowercased ext>` — the
year directory is the 4-digit year, the month directory the lowercased
full month name, and the filename the timestamp plus the lowercased
original extension. -/
theorem c9_round_trip (p : String) :
    get_exif (.ok [("DateTimeOriginal", "2013:10:01 09:17:50")]) =
      .ok (some "10-01-2013 [09.17.50]") ∧
    imageDir orgEx = "out/images" ∧
    sorterDest "out/images" "10-01-2013 [09.17.50]" p =
      .ok ("out/images/2013/october/" ++
        ("10-01-2013 [09.17.50]" ++ pyLower (pathSfx p))) ∧
    pyLower ".JPG" = ".jpg" := by
  refine ⟨rfl, rfl, ?_, rfl⟩
  have h1 : sorterDest "out/images" "10-01-2013 [09.17.50]" p =
      .ok ("out/images" ++ "/" ++ "2013" ++ "/" ++ "october" ++ "/" ++
        pyLower ("10-01-2013 [09.17.50]" ++ pathSfx p)) := rfl
  rw [h1, pyLower_append]
  rfl

/-- C10: the run counters start at zero at construction, every loop
iteration only ever increases each counter (by exactly the number of
placements of its category it performs), the final counters of a run equal
the per-category placement counts of its event trace, and an emitted
end-of-run summary reports exactly those totals. -/
theorem c10_counters_match_placements (org : OrganizerConfig) (fs : List FSEntry)
    (gp rec cb : Bool) :
    initCounters.total_images = 0 ∧
    initCounters.total_videos = 0 ∧
    initCounters.total_unknown = 0 ∧
    (∀ total st e,
      st.counters.total_images ≤ (step org gp cb total st e).counters.total_images ∧
      st.counters.total_videos ≤ (step org gp cb total st e).counters.total_videos ∧
      st.counters.total_unknown ≤ (step org gp cb total st e).counters.total_unknown) ∧
    (parse_dir org fs gp rec cb).counters.total_images =
      countE (isPlacedTo .image) (parse_dir org fs gp rec cb).events ∧
    (parse_dir org fs gp rec cb).counters.total_videos =
      countE (isPlacedTo .video) (parse_dir org fs gp rec cb).events ∧
    (parse_dir org fs gp rec cb).counters.total_unknown =
      countE (isPlacedTo .unknown) (parse_dir org fs gp rec cb).events ∧
    (∀ i v u, Event.summary i v u ∈ (parse_dir org fs gp rec cb).events →
      i = (parse_dir org fs gp rec cb).counters.total_images ∧
      v = (parse_dir org fs gp rec cb).counters.total_videos ∧
      u = (parse_dir org fs gp rec cb).counters.total_unknown) := by
  obtain ⟨evs, he, hi, hv, hu, hs⟩ :=
    foldl_delta org gp cb (globDir rec fs).length (globDir rec fs)
      ⟨initCounters, [], 1, none⟩
  refine ⟨rfl, rfl, rfl, ?_, ?_⟩
  · intro total st e
    obtain ⟨evs1, _, hi1, hv1, hu1, _⟩ := step_delta org gp cb total st e
    refine ⟨?_, ?_, ?_⟩
    · rw [hi1]
      exact Nat.le_add_right _ _
    · rw [hv1]
      exact Nat.le_add_right _ _
    · rw [hu1]
      exact Nat.le_add_right _ _
  · simp only [List.nil_append] at he
    unfold parse_dir
    dsimp only
    cases hexc : (List.foldl (step org gp cb (globDir rec fs).length)
        ⟨initCounters, [], 1, none⟩ (globDir rec fs)).exc with
    | some ex =>
      simp only [hexc]
      rw [he, hi, hv, hu]
      refine ⟨by simp [initCounters], by simp [initCounters], by simp [initCounters], ?_⟩
      intro i v u hm
      exact (countE_zero_not_mem hs hm rfl).elim
    | none =>
      simp only [hexc]
      cases hg : gp || cb with
      | false =>
        simp only [hg, Bool.false_eq_true, if_false]
        rw [he, hi, hv, hu]
        refine ⟨by simp [initCounters], by simp [initCounters], by simp [initCounters], ?_⟩
        intro i v u hm
        exact (countE_zero_not_mem hs hm rfl).elim
      | true =>
        cases cb with
        | false =>
          simp only [hg, Bool.false_eq_true, if_true, if_false]
          rw [he, hi, hv, hu]
          refine ⟨by simp [initCounters], by simp [initCounters], by simp [initCounters],
            ?_⟩
          intro i v u hm
          exact (countE_zero_not_mem hs hm rfl).elim
        | true =>
          simp only [hg, if_true]
          rw [he, hi, hv, hu, countE_append, countE_append, countE_append]
          refine ⟨?_, ?_, ?_, ?_⟩
          · simp [countE, List.filter, isPlacedTo, initCounters]
          · simp [countE, List.filter, isPlacedTo, initCounters]
          · simp [countE, List.filter, isPlacedTo, initCounters]
          · intro i v u hm
            rw [List.mem_append] at hm
            rcases hm with hm | hm
            · exact (countE_zero_not_mem hs hm rfl).elim
            · have hmeq := List.mem_singleton.mp hm
              injection hmeq with h1 h2 h3
              exact ⟨h1, h2, h3⟩

/-- C10 witness: the counters theorem applied to a concrete one-image run
whose summary event is present, the membership hypothesis discharged by
evaluation. -/
theorem c10_counters_match_placements_w :
    (1 : Nat) = (parse_dir orgEx [imgEntry] true true true).counters.total_images ∧
    (0 : Nat) = (parse_dir orgEx [imgEntry] true true true).counters.total_videos ∧
    (0 : Nat) = (parse_dir orgEx [imgEntry] true true true).counters.total_unknown :=
  (c10_counters_match_placements orgEx [imgEntry] true true true).2.2.2.2.2.2.2
    1 0 0 (by decide)

end ImageOrganizer
